import Mathlib

/-!
Verification development for the proxer-rs API client.

The repository's three source files under scrutiny are `lib.rs`,
`manga.rs` and `notification.rs`.  They rely on sibling modules
(`macros`, `error`, `models`) that are not part of the provided
sources; those parts are modelled from the specification and each such
definition is marked with a doc comment beginning `Modelled from the
spec:`.  Everything else is translated directly from the Rust sources.
-/

/-- A model of JSON values as produced by serde_json.  Numbers are
restricted to integers, which covers every field the client decodes
(all wire fields used by the library are integer or string typed). -/
inductive Json where
  | null : Json
  | bool : Bool → Json
  | num : Int → Json
  | str : String → Json
  | arr : List Json → Json
  | obj : List (String × Json) → Json

/-- serde: deserialize a `u64` field; only a JSON integer in range succeeds. -/
def decodeU64 : Json → Except String Nat
  | Json.num n => if 0 ≤ n ∧ n < 2 ^ 64 then Except.ok n.toNat else Except.error "u64 out of range"
  | _ => Except.error "invalid type: expected u64"

/-- serde: deserialize a `u32` field (the `server` field of a chapter). -/
def decodeU32 : Json → Except String Nat
  | Json.num n => if 0 ≤ n ∧ n < 2 ^ 32 then Except.ok n.toNat else Except.error "u32 out of range"
  | _ => Except.error "invalid type: expected u32"

/-- serde: deserialize an `i64` field; only a JSON integer in range succeeds. -/
def decodeI64 : Json → Except String Int
  | Json.num n => if -(2 ^ 63) ≤ n ∧ n < 2 ^ 63 then Except.ok n else Except.error "i64 out of range"
  | _ => Except.error "invalid type: expected i64"

/-- serde: deserialize an `i32` field; only a JSON integer in range succeeds,
a JSON string (such as a page file name) always fails. -/
def decodeI32 : Json → Except String Int
  | Json.num n => if -(2 ^ 31) ≤ n ∧ n < 2 ^ 31 then Except.ok n else Except.error "invalid type: string, expected i32"
  | _ => Except.error "invalid type: string, expected i32"

/-- serde: deserialize a `String` field. -/
def decodeString : Json → Except String String
  | Json.str s => Except.ok s
  | _ => Except.error "invalid type: expected string"

/-- serde: deserialize a `Vec<T>` field from a JSON array. -/
def decodeList (d : Json → Except String α) : Json → Except String (List α)
  | Json.arr l => l.mapM d
  | _ => Except.error "invalid type: expected array"

/-- serde: a required struct field; a missing field is an error. -/
def decodeReqField (fields : List (String × Json)) (name : String)
    (d : Json → Except String α) : Except String α :=
  match fields.lookup name with
  | none => Except.error ("missing field " ++ name)
  | some j => d j

/-- serde: an `Option<T>` struct field; a missing field or JSON `null`
decodes to `none`, any other value must decode as `T`. -/
def decodeOptField (fields : List (String × Json)) (name : String)
    (d : Json → Except String α) : Except String (Option α) :=
  match fields.lookup name with
  | none => Except.ok none
  | some Json.null => Except.ok none
  | some j => (d j).map some

/-- Modelled from the spec: the error taxonomy of the missing `error`
module (section 7): ConnectError, TransportError, DecodeError,
ApiError with code and message, MissingDataError. -/
inductive ApiFailure where
  | connectError : String → ApiFailure
  | transportError : String → ApiFailure
  | decodeError : String → ApiFailure
  | apiError : Nat → String → ApiFailure
  | missingData : ApiFailure
deriving DecidableEq, Repr

/-- Modelled from the spec: the fixed default placeholder message used
when an error envelope carries no `message` field.  The legacy news
path resolves an absent message with `unwrap_or_default()`, i.e. the
empty string, so the model uses the empty string as the placeholder. -/
def defaultMessage : String := ""

/-- Modelled from the spec: the `check_error!` macro of the missing
`macros` module.  If the envelope's error value differs from the
expected success code, fail with an `ApiError` carrying the error code
and the envelope's message when present, else the default placeholder. -/
def check_error (err expected : Nat) (message : Option String) : Except ApiFailure Unit :=
  if err = expected then Except.ok ()
  else Except.error (ApiFailure.apiError err (message.getD defaultMessage))

/-- Modelled from the spec: the `check_data!` macro of the missing
`macros` module.  Unwrap the optional payload; an absent payload
despite a success code is a `MissingDataError`. -/
def check_data : Option α → Except ApiFailure α
  | some d => Except.ok d
  | none => Except.error ApiFailure.missingData

/-- Modelled from the spec: the generic envelope `Response<T>` of the
missing `models` module: integer `error`, optional secondary `code`,
optional `message`, optional payload `data`. -/
structure Response (α : Type) where
  error : Nat
  code : Option Nat
  message : Option String
  data : Option α
deriving DecidableEq, Repr

/-- serde deserialization of the generic envelope `Response<T>`,
parameterised by the payload deserializer. -/
def parseResponse (pd : Json → Except String α) : Json → Except String (Response α)
  | Json.obj fields => do
    let err ← decodeReqField fields "error" decodeU64
    let code ← decodeOptField fields "code" decodeU64
    let message ← decodeOptField fields "message" decodeString
    let data ← decodeOptField fields "data" pd
    Except.ok ⟨err, code, message, data⟩
  | _ => Except.error "invalid type: expected envelope object"

/-- The decode step shared by every `Response<T>` endpoint, exactly as
in `manga.rs` and `notification.rs`: `serde_json::from_reader`, then
`check_error!(data.error, data.code.unwrap_or_default(), data.message)`,
then `check_data!(data.data)`. -/
def decodeEndpoint (pd : Json → Except String α) (j : Json) : Except ApiFailure α :=
  match parseResponse pd j with
  | Except.error e => Except.error (ApiFailure.decodeError e)
  | Except.ok r =>
    match check_error r.error (r.code.getD 0) r.message with
    | Except.error e => Except.error e
    | Except.ok _ => check_data r.data

/-- `lib.rs`: `static BASE_URL: &str = "https://proxer.me/api"`. -/
def BASE_URL : String := "https://proxer.me/api"

/-- `lib.rs`: `static API_VERSION: &str = "v1"`. -/
def API_VERSION : String := "v1"

/-- Modelled from the spec: the crate version from `Cargo.toml`
(`CARGO_PKG_VERSION`), which is not among the provided sources. -/
def CARGO_PKG_VERSION : String := "0.1.0"

/-- `lib.rs`: the fixed `USER_AGENT` string built with `concat!`. -/
def USER_AGENT : String :=
  "proxer-rs (https://github.com/souryo/proxer-rs, " ++ CARGO_PKG_VERSION ++ ")"

/-- `lib.rs`: `static NEWS_URL`, the hard-coded legacy news URL with the
page query parameter fixed at `p=1`. -/
def NEWS_URL : String := "http://proxer.me/notifications?format=json&s=news&p=1"

/-- Modelled from the spec: the `url!` macro of the missing `macros`
module: join the fixed base URL, the fixed API version segment, the
category segment and the action segment. -/
def url (category action : String) : String :=
  BASE_URL ++ "/" ++ API_VERSION ++ "/" ++ category ++ "/" ++ action

/-- Modelled from the spec: the `param_build!` macro of the missing
`macros` module: keep exactly the parameters that are provided
(`Some`), in their declared order, dropping absent (`None`) ones. -/
def param_build : List (String × Option String) → List (String × String)
  | [] => []
  | (k, some v) :: rest => (k, v) :: param_build rest
  | (_, none) :: rest => param_build rest

/-- Modelled from the spec: rendering of the URL-encoded body from the
kept key/value pairs. -/
def encodeParams (ps : List (String × String)) : String :=
  String.intercalate "&" (ps.map (fun kv => kv.1 ++ "=" ++ kv.2))

/-- The HTTP method of a request; `Proxer::connect` uses
`self.client.post(url)`. -/
inductive Method where
  | get : Method
  | post : Method
deriving DecidableEq, Repr

/-- The request a transport call issues: method, URL, header set, body. -/
structure Request where
  method : Method
  url : String
  headers : List (String × String)
  body : String
deriving DecidableEq, Repr

/-- `lib.rs`: the `Proxer` session; it owns the hyper client and the
header set built once in `Proxer::new`.  Headers are modelled as the
list of name/value pairs in the order `new` sets them. -/
structure Proxer where
  header : List (String × String)
deriving DecidableEq, Repr

/-- The outcome of `Proxer::new`: either `Ok(proxer)`, or a Rust panic
(process abort) raised by the `.unwrap()` on the TLS client result. -/
inductive NewResult where
  | success : Proxer → NewResult
  | panicked : String → NewResult
deriving DecidableEq, Repr

/-- `lib.rs` `Proxer::new`: sets Content-Type, User-Agent and the
`proxer-api-token` header carrying the API key, then builds the TLS
client with `NativeTlsClient::new().unwrap()`.  The TLS construction
outcome is an input of the model; on `Err` the `.unwrap()` panics. -/
def Proxer.new (api_key : String) (tls : Except String Unit) : NewResult :=
  match tls with
  | Except.error e => NewResult.panicked e
  | Except.ok _ =>
    NewResult.success
      { header := [("Content-Type", "application/x-www-form-urlencoded"),
                   ("User-Agent", USER_AGENT),
                   ("proxer-api-token", api_key)] }

/-- `lib.rs` `Proxer::connect`: the request it sends, namely a POST to
the given URL with a clone of the session's headers and the given body. -/
def Proxer.connect (p : Proxer) (u body : String) : Request :=
  { method := Method.post, url := u, headers := p.header, body := body }

/-- `manga.rs`: the `Chapter` record, with `pages` typed as
`Vec<Vec<(i32, i32, i32)>>`. -/
structure Chapter where
  cid : Nat
  eid : Nat
  title : String
  uploader : Nat
  username : String
  timestamp : Int
  tid : Nat
  tname : String
  server : Nat
  pages : List (List (Int × Int × Int))
deriving DecidableEq, Repr

/-- `manga.rs` `Chapter::get_chapter_link`: the body is a commented-out
format call and the literal `format!("TODO")`. -/
def Chapter.get_chapter_link (_c : Chapter) : String := "TODO"

/-- serde: deserialization of one `(i32, i32, i32)` tuple, which
requires a JSON array of exactly three in-range integers. -/
def decodeTriple : Json → Except String (Int × Int × Int)
  | Json.arr [a, b, c] => do
    let x ← decodeI32 a
    let y ← decodeI32 b
    let z ← decodeI32 c
    Except.ok (x, y, z)
  | _ => Except.error "invalid type: expected a tuple of size 3"

/-- serde: deserialization of a `Chapter` from a JSON object. -/
def decodeChapter : Json → Except String Chapter
  | Json.obj fields => do
    let cid ← decodeReqField fields "cid" decodeU64
    let eid ← decodeReqField fields "eid" decodeU64
    let title ← decodeReqField fields "title" decodeString
    let uploader ← decodeReqField fields "uploader" decodeU64
    let username ← decodeReqField fields "username" decodeString
    let timestamp ← decodeReqField fields "timestamp" decodeI64
    let tid ← decodeReqField fields "tid" decodeU64
    let tname ← decodeReqField fields "tname" decodeString
    let server ← decodeReqField fields "server" decodeU32
    let pages ← decodeReqField fields "pages" (decodeList (decodeList decodeTriple))
    Except.ok ⟨cid, eid, title, uploader, username, timestamp, tid, tname, server, pages⟩
  | _ => Except.error "invalid type: expected chapter object"

/-- `manga.rs` `Manga::get_chapter`: the declared parameter list the
`param_build!` invocation receives; every parameter is wrapped in
`Some`, `language` included (it is a mandatory `&str` argument). -/
def chapterParams (id episode : Nat) (language : String) : List (String × Option String) :=
  [("id", some (toString id)), ("episode", some (toString episode)),
   ("language", some language)]

/-- `manga.rs` `Manga::get_chapter`: the request it issues. -/
def getChapterRequest (p : Proxer) (id episode : Nat) (language : String) : Request :=
  Proxer.connect p (url "manga" "chapter") (encodeParams (param_build (chapterParams id episode language)))

/-- `manga.rs` `Manga::get_chapter`: the decode step applied to the
response body, with payload type `Vec<Chapter>`. -/
def getChapterDecode : Json → Except ApiFailure (List Chapter) :=
  decodeEndpoint (decodeList decodeChapter)

/-- `notification.rs` `Notification::get_count`: the request it issues
(empty body, `url!("notifications", "count")`). -/
def getCountRequest (p : Proxer) : Request :=
  Proxer.connect p (url "notifications" "count") ""

/-- `notification.rs` `Notification::get_count`: the decode step, with
payload type `String`. -/
def getCountDecode : Json → Except ApiFailure String :=
  decodeEndpoint decodeString

/-- `notification.rs` `Notification::get_news_per_api`: the declared
parameter list; `p` and `limit` are genuinely optional. -/
def newsPerApiParams (page limit : Option Nat) : List (String × Option String) :=
  [("p", page.map toString), ("limit", limit.map toString)]

/-- `notification.rs` `Notification::get_news_per_api`: the request it
issues. -/
def getNewsPerApiRequest (p : Proxer) (page limit : Option Nat) : Request :=
  Proxer.connect p (url "notifications" "news") (encodeParams (param_build (newsPerApiParams page limit)))

/-- `notification.rs` `Notification::delete_notification`: the declared
parameter list; `nid` is optional. -/
def deleteNotificationParams (nid : Option Nat) : List (String × Option String) :=
  [("nid", nid.map toString)]

/-- `notification.rs` `Notification::delete_notification`: the request
it issues. -/
def deleteNotificationRequest (p : Proxer) (nid : Option Nat) : Request :=
  Proxer.connect p (url "notifications" "delete") (encodeParams (param_build (deleteNotificationParams nid)))

/-- Modelled from the spec: the `EmptyResponse` envelope of the missing
`models` module; `delete_notification` reads only `error` and `message`
from it, and it has no `data` payload field. -/
structure EmptyResponse where
  error : Nat
  message : Option String
deriving DecidableEq, Repr

/-- serde deserialization of `EmptyResponse`. -/
def parseEmptyResponse : Json → Except String EmptyResponse
  | Json.obj fields => do
    let err ← decodeReqField fields "error" decodeU64
    let message ← decodeOptField fields "message" decodeString
    Except.ok ⟨err, message⟩
  | _ => Except.error "invalid type: expected envelope object"

/-- `notification.rs` `Notification::delete_notification`: its decode
step.  It parses `EmptyResponse`, runs
`check_error!(data.error, 0, data.message)` and then returns `Ok(())`
unconditionally: there is no `check_data!` step. -/
def deleteNotificationDecode (j : Json) : Except ApiFailure Unit :=
  match parseEmptyResponse j with
  | Except.error e => Except.error (ApiFailure.decodeError e)
  | Except.ok r =>
    match check_error r.error 0 r.message with
    | Except.error e => Except.error e
    | Except.ok _ => Except.ok ()

/-- `lib.rs`: the `NewsNotification` record of the legacy news feed. -/
structure NewsNotification where
  nid : Nat
  time : Int
  description : String
  image_id : Nat
  image_style : String
  subject : String
  hits : Nat
  thread : Nat
  uid : Nat
  uname : String
  posts : Nat
  catid : Nat
  catname : String
deriving DecidableEq, Repr

/-- `lib.rs`: the `ProxerNews` envelope of the legacy news endpoint:
fields `error`, optional `message`, optional `notifications`; it has no
`code` field and no generic `data` wrapper. -/
structure ProxerNews where
  error : Nat
  message : Option String
  notifications : Option (List NewsNotification)
deriving DecidableEq, Repr

/-- serde deserialization of one `NewsNotification`; every field is
required; unknown JSON fields (such as `mid` and `pid`) are ignored, as
serde does by default. -/
def decodeNewsNotification : Json → Except String NewsNotification
  | Json.obj fields => do
    let nid ← decodeReqField fields "nid" decodeU64
    let time ← decodeReqField fields "time" decodeI64
    let description ← decodeReqField fields "description" decodeString
    let image_id ← decodeReqField fields "image_id" decodeU64
    let image_style ← decodeReqField fields "image_style" decodeString
    let subject ← decodeReqField fields "subject" decodeString
    let hits ← decodeReqField fields "hits" decodeU64
    let thread ← decodeReqField fields "thread" decodeU64
    let uid ← decodeReqField fields "uid" decodeU64
    let uname ← decodeReqField fields "uname" decodeString
    let posts ← decodeReqField fields "posts" decodeU64
    let catid ← decodeReqField fields "catid" decodeU64
    let catname ← decodeReqField fields "catname" decodeString
    Except.ok ⟨nid, time, description, image_id, image_style, subject,
               hits, thread, uid, uname, posts, catid, catname⟩
  | _ => Except.error "invalid type: expected news object"

/-- serde deserialization of the `ProxerNews` envelope. -/
def parseProxerNews : Json → Except String ProxerNews
  | Json.obj fields => do
    let err ← decodeReqField fields "error" decodeU64
    let message ← decodeOptField fields "message" decodeString
    let notifications ← decodeOptField fields "notifications" (decodeList decodeNewsNotification)
    Except.ok ⟨err, message, notifications⟩
  | _ => Except.error "invalid type: expected envelope object"

/-- `lib.rs` `Proxer::get_news`: the request it issues, namely
`self.connect(&NEWS_URL, "")` — a POST through the shared transport to
the hard-coded legacy URL with an empty body. -/
def getNewsRequest (p : Proxer) : Request :=
  Proxer.connect p NEWS_URL ""

/-- `lib.rs` `Proxer::get_news`: its decode step: parse `ProxerNews`,
run `check_error!(data.error, 0, data.message.unwrap_or_default())` —
so the message passed on is the envelope's message or the empty string
— then `check_data!(data.notifications)`. -/
def getNewsDecode (j : Json) : Except ApiFailure (List NewsNotification) :=
  match parseProxerNews j with
  | Except.error e => Except.error (ApiFailure.decodeError e)
  | Except.ok r =>
    match check_error r.error 0 (some (r.message.getD "")) with
    | Except.error e => Except.error e
    | Except.ok _ => check_data r.notifications

/-- A concrete session value, equal to the one `Proxer::new("key")`
builds when TLS construction succeeds. -/
def exampleProxer : Proxer :=
  { header := [("Content-Type", "application/x-www-form-urlencoded"),
               ("User-Agent", USER_AGENT),
               ("proxer-api-token", "key")] }

/-- A concrete chapter envelope whose single page entry carries a file
name string in position 0, as the documented wire format does. -/
def chapterEnvelopeWithFileName : Json :=
  Json.obj [("error", Json.num 0),
    ("data", Json.arr [Json.obj
      [("cid", Json.num 4025), ("eid", Json.num 7834),
       ("title", Json.str "Chapter 1"), ("uploader", Json.num 166257),
       ("username", Json.str "uploader-name"), ("timestamp", Json.num 1410374400),
       ("tid", Json.num 783), ("tname", Json.str "group-name"),
       ("server", Json.num 2),
       ("pages", Json.arr [Json.arr [Json.str "01.jpg", Json.num 1100, Json.num 700]])]])]

/-- A concrete legacy news envelope with one notification. -/
def exampleNewsEnvelope : Json :=
  Json.obj [("error", Json.num 0),
    ("notifications", Json.arr [Json.obj
      [("nid", Json.num 100), ("time", Json.num 1485000000),
       ("mid", Json.num 13), ("pid", Json.num 0),
       ("description", Json.str "a short description"),
       ("image_id", Json.num 557), ("image_style", Json.str "width:100%"),
       ("subject", Json.str "a subject"), ("hits", Json.num 5),
       ("thread", Json.num 13), ("uid", Json.num 7),
       ("uname", Json.str "alice"), ("posts", Json.num 2),
       ("catid", Json.num 3), ("catname", Json.str "Anime")]])]

/-- The decoded value of the single notification in
`exampleNewsEnvelope`. -/
def exampleNews : NewsNotification :=
  ⟨100, 1485000000, "a short description", 557, "width:100%", "a subject",
   5, 13, 7, "alice", 2, 3, "Anime"⟩

/-- C1: for every well-formed envelope JSON whose error value equals
the expected success code (the envelope's `code` value, defaulting to
0) and whose `data` field is a non-null payload, the shared decode step
(deserialize, check_error, check_data) returns exactly the decoded
payload. -/
theorem c1_success_returns_payload {α : Type} (pd : Json → Except String α) (j : Json)
    (r : Response α) (p : α)
    (hparse : parseResponse pd j = Except.ok r)
    (herr : r.error = r.code.getD 0)
    (hdata : r.data = some p) :
    decodeEndpoint pd j = Except.ok p := by
  simp [decodeEndpoint, hparse, check_error, herr, check_data, hdata]

/-- Witness for C1: encoding the payload "5#1#0#0#2#1" into a success
envelope and decoding it through the notifications/count pipeline
yields the same payload back. -/
theorem c1_witness :
    getCountDecode (Json.obj [("error", Json.num 0), ("data", Json.str "5#1#0#0#2#1")])
      = Except.ok "5#1#0#0#2#1" :=
  c1_success_returns_payload decodeString _ ⟨0, none, none, some "5#1#0#0#2#1"⟩ _ rfl rfl rfl

/-- C2: for every envelope whose error value differs from the expected
success code, the decode step fails with an ApiError whose message is
the envelope's message when present and the fixed default placeholder
otherwise; it never returns a payload. -/
theorem c2_error_envelope_fails {α : Type} (pd : Json → Except String α) (j : Json)
    (r : Response α)
    (hparse : parseResponse pd j = Except.ok r)
    (herr : r.error ≠ r.code.getD 0) :
    decodeEndpoint pd j
      = Except.error (ApiFailure.apiError r.error (r.message.getD defaultMessage)) := by
  simp [decodeEndpoint, hparse, check_error, herr]

/-- Witness for C2: an error envelope carrying a message decodes to an
ApiError with that message, and one without a message decodes to an
ApiError with the default placeholder. -/
theorem c2_witness :
    getCountDecode (Json.obj [("error", Json.num 1), ("message", Json.str "invalid token")])
      = Except.error (ApiFailure.apiError 1 "invalid token")
    ∧ getCountDecode (Json.obj [("error", Json.num 3)])
      = Except.error (ApiFailure.apiError 3 defaultMessage) :=
  ⟨c2_error_envelope_fails decodeString _ ⟨1, none, some "invalid token", none⟩ rfl (by decide),
   c2_error_envelope_fails decodeString _ ⟨3, none, none, none⟩ rfl (by decide)⟩

/-- C3 counterexample: `delete_notification` is an endpoint function,
yet on the envelope with a success code and no data it returns unit
success and not MissingDataError: the check-then-unwrap sequence does
not apply to it. -/
theorem c3_counterexample :
    deleteNotificationDecode (Json.obj [("error", Json.num 0)]) = Except.ok ()
    ∧ (Except.ok () : Except ApiFailure Unit) ≠ Except.error ApiFailure.missingData :=
  ⟨rfl, by simp⟩

/-- C3 amended: for every payload-returning endpoint (those decoding
the generic `Response<T>` envelope), an envelope with a success code
but an absent or null `data` field fails with MissingDataError. -/
theorem c3_missing_data_fails {α : Type} (pd : Json → Except String α) (j : Json)
    (r : Response α)
    (hparse : parseResponse pd j = Except.ok r)
    (herr : r.error = r.code.getD 0)
    (hdata : r.data = none) :
    decodeEndpoint pd j = Except.error ApiFailure.missingData := by
  simp [decodeEndpoint, hparse, check_error, herr, check_data, hdata]

/-- Witness for C3: the notifications/count pipeline on a success
envelope with no data fails with MissingDataError. -/
theorem c3_witness :
    getCountDecode (Json.obj [("error", Json.num 0)])
      = Except.error ApiFailure.missingData :=
  c3_missing_data_fails decodeString _ ⟨0, none, none, none⟩ rfl rfl rfl

/-- C4 (code bug): when TLS context construction fails, `Proxer::new`
does not return a ConnectError result; the `.unwrap()` on
`NativeTlsClient::new()` panics and aborts the process. -/
theorem c4_tls_failure_panics :
    Proxer.new "api-key" (Except.error "TLS context construction failed")
      = NewResult.panicked "TLS context construction failed"
    ∧ ∀ pr : Proxer,
        Proxer.new "api-key" (Except.error "TLS context construction failed")
          ≠ NewResult.success pr :=
  ⟨rfl, fun _ h => NewResult.noConfusion h⟩

/-- C5 counterexample: the chapter endpoint's `language` argument is a
mandatory `&str` passed as `Some(language)`, so the body of a chapter
request always contains all three keys and never only `id` and
`episode`. -/
theorem c5_counterexample :
    (param_build (chapterParams 1 2 "de")).map Prod.fst = ["id", "episode", "language"]
    ∧ (param_build (chapterParams 1 2 "de")).map Prod.fst ≠ ["id", "episode"] :=
  ⟨rfl, by decide⟩

/-- C5 amended: every endpoint body contains exactly the keys of the
parameters that are provided, in declared order, and omits absent
ones; a news request with only the page set carries only the key `p`;
the chapter endpoint takes `language` as a mandatory parameter, so its
body always carries `id`, `episode` and `language`. -/
theorem c5_body_keys_exact :
    (∀ ps : List (String × Option String),
      (param_build ps).map Prod.fst
        = (ps.filter (fun kv => kv.2.isSome)).map Prod.fst)
    ∧ (∀ page : Nat,
        (param_build (newsPerApiParams (some page) none)).map Prod.fst = ["p"])
    ∧ (param_build (newsPerApiParams none none)).map Prod.fst = []
    ∧ (∀ (id episode : Nat) (language : String),
        (param_build (chapterParams id episode language)).map Prod.fst
          = ["id", "episode", "language"]) := by
  refine ⟨?_, fun page => rfl, rfl, fun id episode language => rfl⟩
  intro ps
  induction ps with
  | nil => rfl
  | cons kv tl ih =>
    obtain ⟨k, v⟩ := kv
    cases v <;> simp [param_build, List.filter_cons, ih]

/-- C6: the endpoint URL is a pure function of the category and action
segments alone; for category "manga" and action "chapter" it is
`https://proxer.me/api/v1/manga/chapter`, identical for every choice of
request parameters and session. -/
theorem c6_url_deterministic :
    url "manga" "chapter" = "https://proxer.me/api/v1/manga/chapter"
    ∧ (∀ (pr : Proxer) (id episode : Nat) (language : String),
        (getChapterRequest pr id episode language).url
          = "https://proxer.me/api/v1/manga/chapter")
    ∧ (∀ pr : Proxer,
        (getCountRequest pr).url = "https://proxer.me/api/v1/notifications/count") :=
  ⟨rfl, fun _ _ _ _ => rfl, fun _ => rfl⟩

/-- C7 counterexample: the legacy news operation goes through the
shared `connect`, which issues a POST, not a GET; and its URL carries
the fixed query `p=1`, not a requested page. -/
theorem c7_counterexample :
    (getNewsRequest exampleProxer).method = Method.post
    ∧ (getNewsRequest exampleProxer).method ≠ Method.get
    ∧ (getNewsRequest exampleProxer).url
        = "http://proxer.me/notifications?format=json&s=news&p=1" :=
  ⟨rfl, by decide, rfl⟩

/-- C7 amended: the legacy news operation issues a plain-HTTP POST to
the fixed URL `http://proxer.me/notifications?format=json&s=news&p=1`
(query parameters format=json, s=news and p fixed at 1 — the page is
not a parameter of `get_news`), with an empty body, and decodes the
flatter envelope with fields error, message and notifications, with no
code field and no generic data wrapper. -/
theorem c7_legacy_news_post_fixed_page :
    (∀ pr : Proxer,
      (getNewsRequest pr).method = Method.post
      ∧ (getNewsRequest pr).url = NEWS_URL
      ∧ (getNewsRequest pr).body = "")
    ∧ NEWS_URL = "http://proxer.me/notifications?format=json&s=news&p=1"
    ∧ getNewsDecode exampleNewsEnvelope = Except.ok [exampleNews]
    ∧ getNewsDecode (Json.obj [("error", Json.num 1), ("message", Json.str "fail")])
        = Except.error (ApiFailure.apiError 1 "fail") :=
  ⟨fun _ => ⟨rfl, rfl, rfl⟩, rfl, rfl, rfl⟩

/-- C8: a session built from an API key carries exactly the three fixed
headers — Content-Type, the library User-Agent, and the
proxer-api-token header holding the key — and every request goes out as
a POST with exactly this header set and the caller's body. -/
theorem c8_fixed_headers (key u b : String) (pr : Proxer)
    (h : Proxer.new key (Except.ok ()) = NewResult.success pr) :
    pr.header = [("Content-Type", "application/x-www-form-urlencoded"),
                 ("User-Agent", USER_AGENT),
                 ("proxer-api-token", key)]
    ∧ (Proxer.connect pr u b).headers = pr.header
    ∧ (Proxer.connect pr u b).body = b
    ∧ (Proxer.connect pr u b).method = Method.post := by
  obtain ⟨hdr⟩ := pr
  simp only [Proxer.new, NewResult.success.injEq, Proxer.mk.injEq] at h
  subst h
  exact ⟨rfl, rfl, rfl, rfl⟩

/-- Witness for C8 at key "key", the legacy news URL and an empty body. -/
theorem c8_witness :
    exampleProxer.header = [("Content-Type", "application/x-www-form-urlencoded"),
      ("User-Agent", USER_AGENT), ("proxer-api-token", "key")]
    ∧ (Proxer.connect exampleProxer NEWS_URL "").headers = exampleProxer.header
    ∧ (Proxer.connect exampleProxer NEWS_URL "").body = ""
    ∧ (Proxer.connect exampleProxer NEWS_URL "").method = Method.post :=
  c8_fixed_headers "key" NEWS_URL "" exampleProxer rfl

/-- C9: the chapter model types page entries as vectors of integer
triples, so any page entry whose first element is a (file name) string
fails to deserialize, and the whole chapter response decodes to a
DecodeError rather than a chapter. -/
theorem c9_page_file_name_fails :
    (∀ (s : String) (rest : List Json),
      decodeList decodeTriple (Json.arr (Json.str s :: rest))
        = Except.error "invalid type: expected a tuple of size 3")
    ∧ getChapterDecode chapterEnvelopeWithFileName
        = Except.error (ApiFailure.decodeError "invalid type: expected a tuple of size 3") := by
  refine ⟨?_, rfl⟩
  intro s rest
  show List.mapM decodeTriple (Json.str s :: rest) = _
  rw [List.mapM_cons]
  rfl

/-- C10: `Chapter::get_chapter_link` returns the literal "TODO" for
every chapter, and never the documented page link built from server,
eid and cid. -/
theorem c10_chapter_link_todo :
    (∀ c : Chapter, c.get_chapter_link = "TODO")
    ∧ ∀ (c : Chapter) (pageName : String),
        c.get_chapter_link
          ≠ "//manga" ++ toString c.server ++ ".proxer.me/f/" ++ toString c.eid
            ++ "/" ++ toString c.cid ++ "/" ++ pageName := by
  refine ⟨fun _ => rfl, ?_⟩
  intro c pageName h
  have hl := congrArg String.length h
  simp only [Chapter.get_chapter_link, String.length_append] at hl
  have h1 : ("TODO" : String).length = 4 := rfl
  have h2 : ("//manga" : String).length = 7 := rfl
  have h3 : (".proxer.me/f/" : String).length = 13 := rfl
  have h4 : ("/" : String).length = 1 := rfl
  simp only [h1, h2, h3, h4] at hl
  omega
